import Mathlib

/-! Verification of the topstep-bot trading core against its Python source.

Shallow-embedding conventions used throughout this file:

* Python floats are modelled as rationals (`ℚ`); Python ints as `Int`.
* Python `None` and optional values are `Option`; a Python function that can
  raise is modelled as `Except` (or the exception is folded into an explicit
  outcome type when the source catches it).
* Pydantic models (`topstep_client/schemas.py`) become structures; JSON
  response bodies are a small `Json` inductive.
* Stateful handlers in `main.py` become pure functions from the relevant state
  plus the event and an oracle for the broker's behaviour, to the new state and
  the observable outputs (HTTP-style response body, orders submitted to the
  broker, log events written).
-/

namespace TopstepBot

/-- Minimal JSON value model for broker response bodies.  Numbers are modelled
as integers, which is enough for the fields the modelled endpoints read. -/
inductive Json where
  | null : Json
  | bool (b : Bool) : Json
  | num (n : Int) : Json
  | str (s : String) : Json
  | obj (fields : List (String × Json)) : Json

/-- First binding of a key in a JSON object field list. -/
def Json.lookupField : List (String × Json) → String → Option Json
  | [], _ => none
  | (k, v) :: rest, key => if k = key then some v else Json.lookupField rest key

/-- Field access on a JSON object; `none` on non-objects and missing keys. -/
def Json.get : Json → String → Option Json
  | .obj fields, key => Json.lookupField fields key
  | _, _ => none

def Json.asInt : Json → Option Int
  | .num n => some n
  | _ => none

def Json.asStr : Json → Option String
  | .str s => some s
  | _ => none

def Json.asBool : Json → Option Bool
  | .bool b => some b
  | _ => none

/-- Pydantic `populate_by_name = True`: a field may be populated from its alias
or from its Python field name.  The alias is tried first. -/
def Json.getNamed (j : Json) (aliasKey fieldName : String) : Option Json :=
  match j.get aliasKey with
  | some v => some v
  | none => j.get fieldName

/-- `schemas.OrderModel` (alias `OrderDetails`): the required fields.  Optional
fields (`updateTimestamp`, `limitPrice`, `stopPrice`) are ignored here, as is
extra input (`extra = ignore`).  `creation_timestamp` is kept as its raw string.
Enum-typed fields (`status`, `type`, `side`) are ints restricted to the enum
ranges of `OrderStatus` (0-6), `OrderType` (0-7) and `OrderSide` (0-1). -/
structure OrderModel where
  id : Int
  account_id : Int
  contract_id : String
  creation_timestamp : String
  status : Int
  type : Int
  side : Int
  size : Int
  fill_volume : Int
deriving DecidableEq

/-- Pydantic validation of a JSON body against `OrderModel`: every required
field must be present (by alias or name) with the right shape. -/
def parseOrderModel (j : Json) : Option OrderModel := do
  let idVal ← (j.get "id").bind Json.asInt
  let acct ← (j.getNamed "accountId" "account_id").bind Json.asInt
  let cid ← (j.getNamed "contractId" "contract_id").bind Json.asStr
  let cts ← (j.getNamed "creationTimestamp" "creation_timestamp").bind Json.asStr
  let st ← (j.get "status").bind Json.asInt
  guard (0 ≤ st ∧ st ≤ 6)
  let ty ← (j.get "type").bind Json.asInt
  guard (0 ≤ ty ∧ ty ≤ 7)
  let sd ← (j.get "side").bind Json.asInt
  guard (0 ≤ sd ∧ sd ≤ 1)
  let sz ← (j.get "size").bind Json.asInt
  let fv ← (j.getNamed "fillVolume" "fill_volume").bind Json.asInt
  some { id := idVal, account_id := acct, contract_id := cid, creation_timestamp := cts,
         status := st, type := ty, side := sd, size := sz, fill_volume := fv }

/-- `schemas.PlaceOrderResponse`: success flag, optional structured error code
(`PlaceOrderErrorCode`, values 0-10), optional error message, nullable broker
order id. -/
structure PlaceOrderResponse where
  success : Bool
  error_code : Option Int := none
  error_message : Option String := none
  order_id : Option Int := none
deriving DecidableEq

/-- The `field_validator` on `PlaceOrderResponse.error_code`: unknown numeric
codes collapse to `PlaceOrderErrorCode.UnknownError = 7`. -/
def validatePlaceOrderErrorCode (n : Int) : Int :=
  if 0 ≤ n ∧ n ≤ 10 then n else 7

/-- An optional int field: absent or `null` parses to `none`; present with a
non-integer shape is a validation failure (outer `none`). -/
def parseOptIntField (j : Json) (key : String) : Option (Option Int) :=
  match j.get key with
  | none => some none
  | some .null => some none
  | some v =>
    match v.asInt with
    | some n => some (some n)
    | none => none

/-- An optional string field, analogous to `parseOptIntField`. -/
def parseOptStrField (j : Json) (key : String) : Option (Option String) :=
  match j.get key with
  | none => some none
  | some .null => some none
  | some v =>
    match v.asStr with
    | some s => some (some s)
    | none => none

/-- Pydantic validation of a JSON body against `PlaceOrderResponse`. -/
def parsePlaceOrderResponse (j : Json) : Option PlaceOrderResponse := do
  let s ← (j.get "success").bind Json.asBool
  let ec ← parseOptIntField j "errorCode"
  let em ← parseOptStrField j "errorMessage"
  let oid ← parseOptIntField j "orderId"
  some { success := s, error_code := ec.map validatePlaceOrderErrorCode,
         error_message := em, order_id := oid }

/-- The exception taxonomy of `topstep_client/exceptions.py` (the constructors
carry the fields the modelled code paths actually set). -/
inductive ApiError where
  | authenticationError (message : String) : ApiError
  | apiRequestError (message : String) (statusCode : Option Nat) (responseText : String) : ApiError
  | apiResponseParsingError (message : String) : ApiError
  | topstepAPIError (message : String) : ApiError
deriving DecidableEq

/-- `APIClient.place_order` response handling: `_request` is called with
`response_model=OrderDetails` (the alias of `OrderModel`), so a 2xx JSON body
is validated against `OrderModel`; a validation failure raises
`APIResponseParsingError` (api_client.py lines 134-157, 214-222). -/
def APIClient.place_order_of_body (body : Json) : Except ApiError OrderModel :=
  match parseOrderModel body with
  | some m => .ok m
  | none => .error (.apiResponseParsingError
      "Failed to parse response for /api/Order/place into OrderModel.")

/-- An HTTP response as seen by `APIClient._request`: status code, raw body
text, and the `errorMessage` key of the body when the body is JSON and has
one (`_request` extracts it for the error message, lines 162-168). -/
structure HttpResponse where
  status : Nat
  text : String
  errorMessageField : Option String := none
deriving DecidableEq

/-- Observable trace of one `APIClient._request` call: how many times the
client authenticated before sending (from `_get_headers`), how many transport
round-trips were made, how many re-authentication attempts were made in
reaction to an HTTP error response, and the outcome (success carries the raw
body; the `response_model` step is modelled separately). -/
structure RequestTrace where
  preAuthCalls : Nat
  httpRequests : Nat
  reauthAttempts : Nat
  outcome : Except ApiError String

/-- `APIClient._request` (api_client.py lines 96-177), error-path behaviour.
`_get_headers` authenticates only when no session token is cached, before the
request is sent.  Exactly one transport request is made; `raise_for_status`
turns any 4xx/5xx into `httpx.HTTPStatusError`, which `_request` wraps as
`APIRequestError` with the HTTP status and the raw body preserved.  There is
no retry of any kind, and no re-authentication in reaction to a 401. -/
def APIClient.request_once (tokenCached : Bool) (resp : HttpResponse) : RequestTrace :=
  let preAuth : Nat := if tokenCached then 0 else 1
  if 400 ≤ resp.status then
    { preAuthCalls := preAuth, httpRequests := 1, reauthAttempts := 0,
      outcome := .error (.apiRequestError
        ("API request failed: " ++ resp.errorMessageField.getD resp.text)
        (some resp.status) resp.text) }
  else
    { preAuthCalls := preAuth, httpRequests := 1, reauthAttempts := 0,
      outcome := .ok resp.text }

/-- `schemas.APIResponse`: the generic `{success, data, error}` wrapper;
only the fields `cancel_order` reads are modelled. -/
structure APIResponse where
  success : Bool
  errorMessage : Option String := none
deriving DecidableEq

/-- Everything `APIClient.cancel_order` can observe from its inner
`_request(..., response_model=APIResponse)` call: a parsed wrapper, or any of
the exceptions the client code can raise. -/
inductive RequestResult (α : Type) where
  | ok (value : α) : RequestResult α
  | apiRequestError (statusCode : Option Nat) (responseText : String) : RequestResult α
  | parsingError (message : String) : RequestResult α
  | authError (message : String) : RequestResult α
  | otherError (message : String) : RequestResult α
deriving DecidableEq

/-- `APIClient.cancel_order` (api_client.py lines 351-394): returns
`response_wrapper.success` on a parsed response; `except APIRequestError`
returns `False`; the final `except Exception` catches everything else
(parsing errors, authentication errors, unexpected exceptions) and also
returns `False`.  The function never re-raises. -/
def APIClient.cancel_order (res : RequestResult APIResponse) : Bool :=
  match res with
  | .ok w => w.success
  | .apiRequestError _ _ => false
  | .parsingError _ => false
  | .authError _ => false
  | .otherError _ => false

/-- `streams.StreamConnectionState`. -/
inductive StreamConnectionState where
  | disconnected
  | connecting
  | connected
  | reconnecting
  | failed
  | stopping
deriving DecidableEq

/-- A subscription message sent on the market hub.  `subscribe_contract` sends
three messages per contract: `SubscribeContractQuotes`,
`SubscribeContractTrades` and `SubscribeContractMarketDepth`. -/
inductive SubMsg where
  | quotes (contractId : String) : SubMsg
  | trades (contractId : String) : SubMsg
  | depth (contractId : String) : SubMsg
deriving DecidableEq

/-- `streams.MarketDataStream`: connection state plus the subscription set
(`self._subscriptions = set()`, a set of contract ids).  The Python set is
modelled as a duplicate-free list: `subscribe_contract` inserts a contract id
only when it is not already present, which is exactly `set.add`. -/
structure MarketDataStream where
  connState : StreamConnectionState
  subscriptions : List String
deriving DecidableEq

/-- The three subscribe messages sent for one contract. -/
def subscribeSends (c : String) : List SubMsg :=
  [.quotes c, .trades c, .depth c]

/-- `MarketDataStream.subscribe_contract` (streams.py lines 255-273): an empty
contract id is rejected; a non-resubscribe call adds the id to the set; the
subscribe messages are sent only while the stream is connected. -/
def MarketDataStream.subscribe_contract (m : MarketDataStream) (c : String)
    (isResubscribe : Bool) : MarketDataStream × List SubMsg :=
  if c = "" then (m, [])
  else
    let m1 := if isResubscribe ∨ c ∈ m.subscriptions then m
              else { m with subscriptions := c :: m.subscriptions }
    if m1.connState = .connected then (m1, subscribeSends c) else (m1, [])

/-- `MarketDataStream._on_open` (streams.py lines 235-241): the base handler
marks the stream connected (and resets the reconnect counter, not modelled),
then re-issues `subscribe_contract(c, is_resubscribe=True)` for every `c` in
`list(self._subscriptions)`.  The result is the new stream state and the
concatenation of all messages sent. -/
def MarketDataStream.on_open (m : MarketDataStream) : MarketDataStream × List SubMsg :=
  let m1 : MarketDataStream := { m with connState := .connected }
  m1.subscriptions.foldl
    (fun acc c =>
      let r := MarketDataStream.subscribe_contract acc.1 c true
      (r.1, acc.2 ++ r.2))
    (m1, [])

/-- Occurrences of one subscribe message in a sent-message list. -/
def countMsg (msg : SubMsg) : List SubMsg → Nat
  | [] => 0
  | x :: rest => (if x = msg then 1 else 0) + countMsg msg rest

/-- A strategy configuration dict as read by `main.py`.  Every field is
optional because the code reads them with `.get` and a default:
`CONTRACT_SYMBOL` defaults to `NQ`, `TRADE_SIZE` to 1, and the four PnL
thresholds default to plus/minus infinity (i.e. no threshold). -/
structure StrategyCfg where
  contract_symbol : Option String := none
  projectx_contract_id : Option String := none
  trade_size : Option Int := none
  max_trade_profit : Option ℚ := none
  max_trade_loss : Option ℚ := none
  max_daily_profit : Option ℚ := none
  max_daily_loss : Option ℚ := none
deriving DecidableEq

/-- The `Trade` class of `main.py` (lines 609-637).  `entry_time` is omitted
(wall-clock only).  `status` ranges over the strings the code assigns:
`open`, `open_filled`, `closing`, `closed`. -/
structure Trade where
  strategy_name : String
  order_id : Int
  account_id : Int
  contract_id : String
  entry_price : Option ℚ := none
  direction : String
  size : Int := 1
  exit_price : Option ℚ := none
  pnl : ℚ := 0
  status : String := "open"
deriving DecidableEq

/-- One entry of `trade_states` (main.py line 640): per-strategy runtime
state, with the defaults used by `setdefault` in the webhook handler. -/
structure StrategyState where
  trade_active : Bool := false
  daily_pnl : ℚ := 0
  current_trade : Option Trade := none
  trading_halted_today : Bool := false
deriving DecidableEq

/-- Point value lookup used by both `handle_user_trade` (line 721) and
`check_and_close_active_trade` (line 788):
`20 if cfg.get("CONTRACT_SYMBOL", "NQ") == "NQ" else 50`. -/
def pointValue (cfg : StrategyCfg) : ℚ :=
  if cfg.contract_symbol.getD "NQ" = "NQ" then 20 else 50

/-- `1 if direction == "long" else -1` (main.py lines 718 and 784). -/
def directionSign (direction : String) : ℚ :=
  if direction = "long" then 1 else -1

/-- Unrealized PnL in dollars as computed by `check_and_close_active_trade`
(main.py lines 783-790): `(mark - entry) * sign * point_value * size`. -/
def unrealizedPnl (mark entry : ℚ) (direction : String) (pv : ℚ) (size : Int) : ℚ :=
  (mark - entry) * directionSign direction * pv * (size : ℚ)

/-- `total_dollar_pnl >= cfg.get("MAX_TRADE_PROFIT", float(inf))`: with the
threshold absent the default is plus infinity, which a finite PnL never
reaches. -/
def hitsUpper (bound : Option ℚ) (pnl : ℚ) : Bool :=
  match bound with
  | some b => decide (b ≤ pnl)
  | none => false

/-- `total_dollar_pnl <= cfg.get("MAX_TRADE_LOSS", float(-inf))`: with the
threshold absent the default is minus infinity, never reached. -/
def hitsLower (bound : Option ℚ) (pnl : ℚ) : Bool :=
  match bound with
  | some b => decide (pnl ≤ b)
  | none => false

/-- The exit decision of `check_and_close_active_trade` (main.py lines
774-796): no decision without an entry price; otherwise the per-trade
thresholds are checked on the computed unrealized PnL, profit first.  A close
is attempted exactly when the result is not `none`. -/
def exitReason (cfg : StrategyCfg) (t : Trade) (mark : ℚ) : Option String :=
  match t.entry_price with
  | none => none
  | some e =>
    let pnl := unrealizedPnl mark e t.direction (pointValue cfg) t.size
    if hitsUpper cfg.max_trade_profit pnl then some "Max Trade Profit Hit"
    else if hitsLower cfg.max_trade_loss pnl then some "Max Trade Loss Hit"
    else none

/-- Outcome of `close_position_projectx` as observed by the exit engine:
the close order was placed (`success` dict with an order id), the API reported
failure (`success False` dict), or an exception was raised during the
attempt. -/
inductive CloseOutcome where
  | success (orderId : Int) : CloseOutcome
  | failure (errorMessage : Option String) : CloseOutcome
  | raised (message : String) : CloseOutcome
deriving DecidableEq

/-- Result of one close attempt: the trade object after the attempt and the
events appended to the alert log. -/
structure CloseAttempt where
  trade : Trade
  alertLogEvents : List String
deriving DecidableEq

/-- The close-attempt section of `check_and_close_active_trade` (main.py lines
798-815): the trade is first marked `closing`; on a placed close order it
stays `closing` (the fill via the user hub finishes it); on a business
failure or an exception the status is set back to `open_filled` and a failure
event is logged. -/
def attemptClose (t : Trade) (outcome : CloseOutcome) : CloseAttempt :=
  let marked : Trade := { t with status := "closing" }
  match outcome with
  | .success _ => { trade := marked, alertLogEvents := [] }
  | .failure _ => { trade := { marked with status := "open_filled" },
                    alertLogEvents := ["Error Closing Position"] }
  | .raised _ => { trade := { marked with status := "open_filled" },
                   alertLogEvents := ["Exception Closing Position"] }

/-- One user-hub trade event as read by `handle_user_trade`:
`orderId`, `price` and `status` fields of the event dict. -/
structure TradeEvent where
  orderId : Option Int := none
  price : Option ℚ := none
  status : Option String := none
deriving DecidableEq

/-- Result of `handle_user_trade` for one strategy: the strategy state after
the event, and the trade object the event matched (after mutation; `none`
when no trade matched). -/
structure HandleUserTradeResult where
  state : StrategyState
  trade : Option Trade
deriving DecidableEq

/-- `handle_user_trade` (main.py lines 676-757), restricted to the strategy
whose `current_trade` the event is matched against.  A `Filled` event with a
price sets the entry price on a trade that has none (status becomes
`open_filled`); with the entry price already set it is processed as an exit
fill exactly when the trade status is `closing` (exit price and realized PnL
are recorded, daily PnL is updated, and the trade is removed from the state);
in every other case the state is unchanged (the `Closed` branch only logs). -/
def handle_user_trade (cfg : StrategyCfg) (state : StrategyState) (ev : TradeEvent) :
    HandleUserTradeResult :=
  match ev.orderId with
  | none => { state := state, trade := state.current_trade }
  | some oid =>
    match state.current_trade with
    | none => { state := state, trade := none }
    | some t =>
      if t.order_id = oid then
        match ev.status, ev.price with
        | some "Filled", some p =>
          match t.entry_price with
          | none =>
            let t1 : Trade := { t with entry_price := some p, status := "open_filled" }
            { state := { state with current_trade := some t1 }, trade := some t1 }
          | some e =>
            if t.status = "closing" then
              let pnlDollars := (p - e) * directionSign t.direction * pointValue cfg * (t.size : ℚ)
              let t1 : Trade := { t with exit_price := some p, status := "closed", pnl := pnlDollars }
              let st1 : StrategyState :=
                { state with trade_active := false, current_trade := none,
                             daily_pnl := state.daily_pnl + pnlDollars }
              { state := st1, trade := some t1 }
            else { state := state, trade := some t }
        | _, _ => { state := state, trade := some t }
      else { state := state, trade := some t }

/-- The `SignalAlert` request model of `main.py` (lines 385-394), with its
defaults (`ticker` defaults to `NQ`, `order_type` to `market`;
`account_id` is required). -/
structure SignalAlert where
  signal : String
  ticker : Option String := some "NQ"
  time : Option String := none
  order_type : String := "market"
  limit_price : Option ℚ := none
  stop_price : Option ℚ := none
  trailingDistance : Option Int := none
  quantity : Option Int := none
  account_id : Int
deriving DecidableEq

/-- `schemas.PlaceOrderRequest` (alias `OrderRequest`), the fields
`place_order_projectx` fills in.  `side` and `type` carry the integer enum
values (`OrderSide`, `OrderType`). -/
structure OrderRequest where
  account_id : Int
  contract_id : String
  size : Int
  side : Int
  type : Int
  limit_price : Option ℚ := none
  stop_price : Option ℚ := none
  trail_price : Option ℚ := none
deriving DecidableEq

/-- Oracle for `api_client.place_order` inside `place_order_projectx`: the
call either returns a parsed `PlaceOrderResponse`-shaped result or raises. -/
inductive ApiPlaceOutcome where
  | ret (resp : PlaceOrderResponse) : ApiPlaceOutcome
  | raised (message : String) : ApiPlaceOutcome
deriving DecidableEq

/-- The dict returned by `place_order_projectx` (main.py lines 556-568):
either the success dict (with the broker order id) or the failure dict
(whose `errorMessage` value may itself be Python `None`).  Both record the
`OrderRequest` the broker call was invoked with. -/
inductive PlaceResult where
  | ok (orderId : Int) (request : OrderRequest) : PlaceResult
  | failed (errorMessage : Option String) (request : OrderRequest) : PlaceResult
deriving DecidableEq

/-- The `OrderRequest` a `PlaceResult` was produced with: both dicts of
`place_order_projectx` correspond to one invocation of
`api_client.place_order` with this request. -/
def PlaceResult.request : PlaceResult → OrderRequest
  | .ok _ req => req
  | .failed _ req => req

/-- Python `str(x)` on an optional string: `None` prints as `None`. -/
def pyStrOfOptStr : Option String → String
  | some s => s
  | none => "None"

/-- Python `str.lower()` (ASCII range), applied to signal and order-type
strings.  Defined over the character list so that it evaluates by kernel
reduction. -/
def pyLower (s : String) : String :=
  ⟨s.data.map (fun c => if 65 ≤ c.toNat ∧ c.toNat ≤ 90 then Char.ofNat (c.toNat + 32) else c)⟩

/-- Signal-to-`OrderSide` conversion of `place_order_projectx` (main.py lines
504-511): `long`/`buy` map to `Bid = 0`, `short`/`sell` to `Ask = 1`, anything
else raises. -/
def sideOfSignal (sideStr : String) : Option Int :=
  if sideStr = "long" ∨ sideStr = "buy" then some 0
  else if sideStr = "short" ∨ sideStr = "sell" then some 1
  else none

/-- Order-type conversion of `place_order_projectx` (main.py lines 513-526):
`market = 2`, `limit = 1`, `stop = 4`, `trailingstop = 5`; anything else
raises. -/
def orderTypeOfString (otStr : String) : Option Int :=
  if otStr = "market" then some 2
  else if otStr = "limit" then some 1
  else if otStr = "stop" then some 4
  else if otStr = "trailingstop" then some 5
  else none

/-- `trailing_distance is None or trailing_distance <= 0` (main.py line 546). -/
def trailingDistanceInvalid : Option Int → Bool
  | some d => decide (d ≤ 0)
  | none => true

/-- `place_order_projectx` (main.py lines 489-568).  The validation steps
before the broker call raise (`Except.error` with the message); the broker
call itself is the `api` oracle, whose exception is caught and folded into
the failure dict.  Python truthiness is modelled where the code relies on it
(an account id of 0 and an empty ticker string are falsy). -/
def place_order_projectx (alert : SignalAlert) (cfg : StrategyCfg)
    (globalAccountId : Option Int) (api : ApiPlaceOutcome) : Except String PlaceResult :=
  let acctOpt : Option Int :=
    if alert.account_id ≠ 0 then some alert.account_id else globalAccountId
  match acctOpt with
  | none => .error "Account ID is missing: not globally configured and not in alert."
  | some acct =>
    if acct = 0 then .error "Account ID is missing: not globally configured and not in alert."
    else
      let contractOpt : Option String :=
        match alert.ticker with
        | some tk => if tk = "" then cfg.projectx_contract_id else some tk
        | none => cfg.projectx_contract_id
      match contractOpt with
      | none => .error "Contract ID missing in alert and strategy config."
      | some cid =>
        if cid = "" then .error "Contract ID missing in alert and strategy config."
        else
          let qty : Int := alert.quantity.getD (cfg.trade_size.getD 1)
          match sideOfSignal (pyLower alert.signal) with
          | none => .error ("Invalid signal/side from webhook: " ++ alert.signal)
          | some side =>
            match orderTypeOfString (pyLower alert.order_type) with
            | none => .error ("Unknown order type from webhook: " ++ alert.order_type)
            | some ot =>
              if ot = 1 ∧ alert.limit_price = none then
                .error "limit_price is required for a limit order."
              else if ot = 4 ∧ alert.stop_price = none then
                .error "stop_price is required for a stop order."
              else if ot = 5 ∧ trailingDistanceInvalid alert.trailingDistance = true then
                .error "trailing_distance (as price offset) required and must be positive for TrailingStop."
              else
                let req : OrderRequest :=
                  { account_id := acct, contract_id := cid, size := qty, side := side, type := ot,
                    limit_price := alert.limit_price, stop_price := alert.stop_price,
                    trail_price := if ot = 5 then alert.trailingDistance.map (fun d => (d : ℚ)) else none }
                match api with
                | .ret r =>
                  match r.order_id with
                  | some oid => if r.success then .ok (.ok oid req) else .ok (.failed r.error_message req)
                  | none => .ok (.failed r.error_message req)
                | .raised msg => .ok (.failed (some msg) req)

/-- The response body the webhook handler returns (always via a normal return
value, which FastAPI serializes with HTTP status 200; guard rejections are
never surfaced as 5xx). -/
structure WebhookResponse where
  status : String
  reason : Option String := none
  detail : Option String := none
  projectx_order_id : Option Int := none
deriving DecidableEq

/-- Observable effect of one webhook delivery: the response body, the
strategy's runtime state after handling, and the order-placement calls made
to the broker while handling. -/
structure WebhookResult where
  response : WebhookResponse
  state : StrategyState
  ordersSubmitted : List OrderRequest
deriving DecidableEq

/-- Association-list lookup keyed by strategy name (the `strategies` and
`trade_states` dicts of `main.py`). -/
def lookupStr {α : Type} : List (String × α) → String → Option α
  | [], _ => none
  | (k, v) :: rest, key => if k = key then some v else lookupStr rest key

/-- `receive_alert_strategy`, the `POST /webhook/{strategy}` handler (main.py
lines 851-936).  Guard order as in the code: unknown strategy, halted-for-day,
trade already active, missing global account id; each guard returns a
structured body and makes no broker call.  Past the guards,
`place_order_projectx` runs: its validation exceptions are caught by the
handler's `except` block (status `error` with the detail); a failure dict
yields status `error` with the reason; and on the success dict the handler
evaluates `order_req.contract_id` (line 898) - but `order_req` is not a name
bound in `receive_alert_strategy` (it is a local of `place_order_projectx`),
so Python raises `NameError` before the `Trade` is constructed, the `except`
block catches it, and the state is left unregistered.  The Python message is
"name 'order_req' is not defined"; the quotes are elided here. -/
def receive_alert_strategy (strategies : List (String × StrategyCfg))
    (states : List (String × StrategyState)) (globalAccountId : Option Int)
    (name : String) (alert : SignalAlert) (api : ApiPlaceOutcome) : WebhookResult :=
  match lookupStr strategies name with
  | none =>
    { response := { status := "error", reason := some ("Strategy " ++ name ++ " not found") },
      state := (lookupStr states name).getD {}, ordersSubmitted := [] }
  | some cfg =>
    let st := (lookupStr states name).getD {}
    if st.trading_halted_today then
      { response := { status := "halted",
                      reason := some "daily PnL limit previously reached for this strategy" },
        state := st, ordersSubmitted := [] }
    else if st.trade_active then
      { response := { status := "ignored",
                      reason := some ("trade already active for strategy " ++ name) },
        state := st, ordersSubmitted := [] }
    else
      match globalAccountId with
      | none =>
        { response := { status := "error", reason := some "Server error: Account ID not configured." },
          state := st, ordersSubmitted := [] }
      | some gacct =>
        if gacct = 0 then
          { response := { status := "error", reason := some "Server error: Account ID not configured." },
            state := st, ordersSubmitted := [] }
        else
          match place_order_projectx alert cfg (some gacct) api with
          | .error msg =>
            { response := { status := "error", detail := some msg },
              state := st, ordersSubmitted := [] }
          | .ok (.ok _oid req) =>
            { response := { status := "error", detail := some "name order_req is not defined" },
              state := st, ordersSubmitted := [req] }
          | .ok (.failed em req) =>
            { response := { status := "error",
                            reason := some ("Failed to place order: " ++ pyStrOfOptStr em) },
              state := st, ordersSubmitted := [req] }

/-! Theorems.  Each claim of the specification gets one theorem below; shared
helper lemmas precede them. -/

/-- C1: the exit engine computes unrealized PnL as
`(mark - E) * (+1 if long else -1) * V * S` and triggers a close exactly when
that PnL is at or beyond one of the per-trade thresholds; the thresholds are
inclusive, and a PnL strictly inside the open interval (so in particular one
unit inside a bound) does not trigger. -/
theorem C1_exit_engine_thresholds (cfg : StrategyCfg) (t : Trade) (e mark mtp mtl : ℚ)
    (he : t.entry_price = some e)
    (hp : cfg.max_trade_profit = some mtp)
    (hl : cfg.max_trade_loss = some mtl) :
    unrealizedPnl mark e t.direction (pointValue cfg) t.size
      = (mark - e) * (if t.direction = "long" then 1 else -1) * pointValue cfg * (t.size : ℚ)
    ∧ (exitReason cfg t mark ≠ none
        ↔ (mtp ≤ unrealizedPnl mark e t.direction (pointValue cfg) t.size
            ∨ unrealizedPnl mark e t.direction (pointValue cfg) t.size ≤ mtl))
    ∧ (unrealizedPnl mark e t.direction (pointValue cfg) t.size = mtp
        → exitReason cfg t mark ≠ none)
    ∧ (unrealizedPnl mark e t.direction (pointValue cfg) t.size = mtl
        → exitReason cfg t mark ≠ none)
    ∧ (mtl < unrealizedPnl mark e t.direction (pointValue cfg) t.size
        → unrealizedPnl mark e t.direction (pointValue cfg) t.size < mtp
        → exitReason cfg t mark = none) := by
  have hreason : exitReason cfg t mark =
      (if mtp ≤ unrealizedPnl mark e t.direction (pointValue cfg) t.size
       then some "Max Trade Profit Hit"
       else if unrealizedPnl mark e t.direction (pointValue cfg) t.size ≤ mtl
       then some "Max Trade Loss Hit"
       else none) := by
    simp [exitReason, he, hp, hl, hitsUpper, hitsLower]
  refine ⟨by simp [unrealizedPnl, directionSign], ?_, ?_, ?_, ?_⟩
  · rw [hreason]
    by_cases h1 : mtp ≤ unrealizedPnl mark e t.direction (pointValue cfg) t.size
    · simp [h1]
    · by_cases h2 : unrealizedPnl mark e t.direction (pointValue cfg) t.size ≤ mtl
      · simp [h1, h2]
      · simp [h1, h2]
  · intro hpe
    rw [hreason, if_pos (le_of_eq hpe.symm)]
    simp
  · intro hle
    rw [hreason]
    by_cases h1 : mtp ≤ unrealizedPnl mark e t.direction (pointValue cfg) t.size
    · simp [h1]
    · rw [if_neg h1, if_pos (le_of_eq hle)]
      simp
  · intro h1 h2
    rw [hreason, if_neg (not_le.mpr h2), if_neg (not_le.mpr h1)]

/-- Witness for C1, scenario A of the specification: NQ strategy with
thresholds 450 / -350, long entry at 18000, mark 18022.5: the PnL is exactly
450 and the close triggers. -/
theorem C1_exit_engine_thresholds_witness :
    exitReason
        { contract_symbol := some "NQ", max_trade_profit := some 450, max_trade_loss := some (-350) }
        { strategy_name := "default", order_id := 101, account_id := 8027309,
          contract_id := "CON.F.US.ENQ.M25", entry_price := some 18000, direction := "long",
          size := 1, status := "open_filled" } (36045 / 2) ≠ none := by
  have h := C1_exit_engine_thresholds
      { contract_symbol := some "NQ", max_trade_profit := some 450, max_trade_loss := some (-350) }
      { strategy_name := "default", order_id := 101, account_id := 8027309,
        contract_id := "CON.F.US.ENQ.M25", entry_price := some 18000, direction := "long",
        size := 1, status := "open_filled" } 18000 (36045 / 2) 450 (-350) rfl rfl rfl
  refine h.2.2.1 ?_
  norm_num [unrealizedPnl, directionSign, pointValue]

/-- C2: with the strategy known, a halted-for-day strategy gets the structured
halted body, and (the halted guard passing) an already-active strategy gets the
structured ignored body with the exact reason string; in both cases no broker
order call is made and the handler returns a normal structured value (FastAPI
serializes it with HTTP 200, never a 5xx). -/
theorem C2_guard_rejections (strategies : List (String × StrategyCfg))
    (states : List (String × StrategyState)) (acct : Option Int) (name : String)
    (alert : SignalAlert) (api : ApiPlaceOutcome) (cfg : StrategyCfg) (st : StrategyState)
    (hs : lookupStr strategies name = some cfg)
    (hst : (lookupStr states name).getD {} = st) :
    (st.trading_halted_today = true →
      receive_alert_strategy strategies states acct name alert api
        = { response := { status := "halted",
                          reason := some "daily PnL limit previously reached for this strategy" },
            state := st, ordersSubmitted := [] })
    ∧ (st.trading_halted_today = false → st.trade_active = true →
      receive_alert_strategy strategies states acct name alert api
        = { response := { status := "ignored",
                          reason := some ("trade already active for strategy " ++ name) },
            state := st, ordersSubmitted := [] }) := by
  constructor
  · intro hh
    simp [receive_alert_strategy, hs, hst, hh]
  · intro hh ha
    simp [receive_alert_strategy, hs, hst, hh, ha]

/-- Witness for C2: concrete halted and already-active states produce the two
structured rejection bodies of the claim. -/
theorem C2_guard_rejections_witness :
    (receive_alert_strategy [("default", {})]
        [("default", { trading_halted_today := true })] (some 11111) "default"
        { signal := "long", account_id := 5 } (.raised "unused")).response
      = { status := "halted", reason := some "daily PnL limit previously reached for this strategy" }
    ∧ (receive_alert_strategy [("default", {})]
        [("default", { trade_active := true })] (some 11111) "default"
        { signal := "long", account_id := 5 } (.raised "unused")).response
      = { status := "ignored", reason := some "trade already active for strategy default" } := by
  constructor
  · have h := (C2_guard_rejections [("default", {})]
        [("default", { trading_halted_today := true })] (some 11111) "default"
        { signal := "long", account_id := 5 } (.raised "unused") {}
        { trading_halted_today := true } rfl rfl).1 rfl
    rw [h]
  · have h := (C2_guard_rejections [("default", {})]
        [("default", { trade_active := true })] (some 11111) "default"
        { signal := "long", account_id := 5 } (.raised "unused") {}
        { trade_active := true } rfl rfl).2 rfl rfl
    rw [h]
    rfl

/-- Helper for C3: past its validations, a market long alert with a non-empty
ticker leads `place_order_projectx` to invoke the broker with an order whose
contract id is the alert ticker - whatever the broker then answers. -/
theorem place_order_projectx_market_long (alert : SignalAlert) (cfg : StrategyCfg)
    (gacct : Int) (api : ApiPlaceOutcome) (tk : String)
    (ha : alert.account_id ≠ 0) (htk : alert.ticker = some tk) (htk2 : tk ≠ "")
    (hsig : pyLower alert.signal = "long") (hot : pyLower alert.order_type = "market") :
    ∃ pr : PlaceResult,
      place_order_projectx alert cfg (some gacct) api = .ok pr
      ∧ pr.request = { account_id := alert.account_id, contract_id := tk,
                       size := alert.quantity.getD (cfg.trade_size.getD 1), side := 0, type := 2,
                       limit_price := alert.limit_price, stop_price := alert.stop_price } := by
  have hside : sideOfSignal (pyLower alert.signal) = some 0 := by rw [hsig]; rfl
  have hot2 : orderTypeOfString (pyLower alert.order_type) = some 2 := by rw [hot]; rfl
  cases api with
  | ret r =>
    cases hroid : r.order_id with
    | none =>
      refine ⟨.failed r.error_message _, ?_, rfl⟩
      simp [place_order_projectx, ha, htk, htk2, hside, hot2, hroid]
    | some oid =>
      cases hrs : r.success with
      | true =>
        refine ⟨.ok oid _, ?_, rfl⟩
        simp [place_order_projectx, ha, htk, htk2, hside, hot2, hroid, hrs]
      | false =>
        refine ⟨.failed r.error_message _, ?_, rfl⟩
        simp [place_order_projectx, ha, htk, htk2, hside, hot2, hroid, hrs]
  | raised msg =>
    refine ⟨.failed (some msg) _, ?_, rfl⟩
    simp [place_order_projectx, ha, htk, htk2, hside, hot2]

/-- C3 counterexample: a webhook with ticker ES against the strategy
configured for NQ is NOT answered with the wrong-ticker ignored body, and an
order-placement call IS made - with contract id ES. -/
theorem C3_wrong_ticker_counterexample :
    (receive_alert_strategy
        [("default", { contract_symbol := some "NQ", projectx_contract_id := some "CON.F.US.ENQ.M25" })]
        [] (some 11111) "default"
        { signal := "long", ticker := some "ES", account_id := 8027309 }
        (.ret { success := true, order_id := some 9001 })).response.status ≠ "ignored"
    ∧ (receive_alert_strategy
        [("default", { contract_symbol := some "NQ", projectx_contract_id := some "CON.F.US.ENQ.M25" })]
        [] (some 11111) "default"
        { signal := "long", ticker := some "ES", account_id := 8027309 }
        (.ret { success := true, order_id := some 9001 })).response.reason ≠ some "wrong ticker"
    ∧ (receive_alert_strategy
        [("default", { contract_symbol := some "NQ", projectx_contract_id := some "CON.F.US.ENQ.M25" })]
        [] (some 11111) "default"
        { signal := "long", ticker := some "ES", account_id := 8027309 }
        (.ret { success := true, order_id := some 9001 })).ordersSubmitted
      = [{ account_id := 8027309, contract_id := "ES", size := 1, side := 0, type := 2 }] := by
  have hr : receive_alert_strategy
      [("default", { contract_symbol := some "NQ", projectx_contract_id := some "CON.F.US.ENQ.M25" })]
      [] (some 11111) "default"
      { signal := "long", ticker := some "ES", account_id := 8027309 }
      (.ret { success := true, order_id := some 9001 })
      = { response := { status := "error", detail := some "name order_req is not defined" },
          state := {},
          ordersSubmitted := [{ account_id := 8027309, contract_id := "ES",
                                size := 1, side := 0, type := 2 }] } := by rfl
  refine ⟨?_, ?_, ?_⟩ <;> rw [hr] <;> decide

/-- C3 amended: the handler performs no ticker validation at all - with every
other guard passing, a market long alert whose ticker differs from the
configured symbol still reaches order placement, the alert ticker is used as
the order contract id, and the response has status `error` (success-path
NameError or placement failure), never a wrong-ticker `ignored` body. -/
theorem C3_no_ticker_validation (strategies : List (String × StrategyCfg))
    (states : List (String × StrategyState)) (gacct : Int) (name : String)
    (alert : SignalAlert) (api : ApiPlaceOutcome) (cfg : StrategyCfg) (st : StrategyState)
    (tk : String)
    (hs : lookupStr strategies name = some cfg)
    (hst : (lookupStr states name).getD {} = st)
    (hhalt : st.trading_halted_today = false)
    (hact : st.trade_active = false)
    (hg : gacct ≠ 0)
    (ha : alert.account_id ≠ 0)
    (htk : alert.ticker = some tk) (htk2 : tk ≠ "")
    (hsig : pyLower alert.signal = "long")
    (hot : pyLower alert.order_type = "market") :
    ∃ req : OrderRequest,
      (receive_alert_strategy strategies states (some gacct) name alert api).ordersSubmitted = [req]
      ∧ req.contract_id = tk
      ∧ (receive_alert_strategy strategies states (some gacct) name alert api).response.status
          = "error" := by
  obtain ⟨pr, hpr, hreq⟩ := place_order_projectx_market_long alert cfg gacct api tk ha htk htk2 hsig hot
  cases pr with
  | ok oid req =>
    have hreq2 : req = { account_id := alert.account_id, contract_id := tk,
                         size := alert.quantity.getD (cfg.trade_size.getD 1), side := 0, type := 2,
                         limit_price := alert.limit_price, stop_price := alert.stop_price } := hreq
    have hrec : receive_alert_strategy strategies states (some gacct) name alert api
        = { response := { status := "error", detail := some "name order_req is not defined" },
            state := st, ordersSubmitted := [req] } := by
      simp [receive_alert_strategy, hs, hst, hhalt, hact, hg, hpr]
    exact ⟨req, by rw [hrec], by rw [hreq2], by rw [hrec]⟩
  | failed em req =>
    have hreq2 : req = { account_id := alert.account_id, contract_id := tk,
                         size := alert.quantity.getD (cfg.trade_size.getD 1), side := 0, type := 2,
                         limit_price := alert.limit_price, stop_price := alert.stop_price } := hreq
    have hrec : receive_alert_strategy strategies states (some gacct) name alert api
        = { response := { status := "error",
                          reason := some ("Failed to place order: " ++ pyStrOfOptStr em) },
            state := st, ordersSubmitted := [req] } := by
      simp [receive_alert_strategy, hs, hst, hhalt, hact, hg, hpr]
    exact ⟨req, by rw [hrec], by rw [hreq2], by rw [hrec]⟩

/-- Witness for the amended C3 at a concrete wrong-ticker input. -/
theorem C3_no_ticker_validation_witness :
    ∃ req : OrderRequest,
      (receive_alert_strategy [("default", { contract_symbol := some "NQ" })] [] (some 22222)
          "default" { signal := "long", ticker := some "ES", account_id := 7 }
          (.raised "transport down")).ordersSubmitted = [req]
      ∧ req.contract_id = "ES"
      ∧ (receive_alert_strategy [("default", { contract_symbol := some "NQ" })] [] (some 22222)
          "default" { signal := "long", ticker := some "ES", account_id := 7 }
          (.raised "transport down")).response.status = "error" :=
  C3_no_ticker_validation [("default", { contract_symbol := some "NQ" })] [] 22222 "default"
    { signal := "long", ticker := some "ES", account_id := 7 } (.raised "transport down")
    { contract_symbol := some "NQ" } {} "ES" rfl rfl rfl rfl (by decide) (by decide) rfl
    (by decide) rfl rfl

/-- C4 (code bug): a fully successful order placement does NOT register a
pending trade and does NOT return the broker order id: main.py line 898 reads
`order_req.contract_id`, but `order_req` is not bound in the handler (it is a
local of `place_order_projectx`), so the success path raises `NameError`; the
handler answers with a status `error` body carrying the NameError text while
the strategy state keeps `trade_active = False` and no current trade -
although the broker order was in fact submitted. -/
theorem C4_success_path_never_registers_trade :
    receive_alert_strategy
        [("default", { contract_symbol := some "NQ", projectx_contract_id := some "CON.F.US.ENQ.M25" })]
        [] (some 11111) "default"
        { signal := "long", ticker := some "CON.F.US.ENQ.M25", account_id := 8027309 }
        (.ret { success := true, error_code := some 0, order_id := some 12345 })
      = { response := { status := "error", detail := some "name order_req is not defined" },
          state := {},
          ordersSubmitted := [{ account_id := 8027309, contract_id := "CON.F.US.ENQ.M25",
                                size := 1, side := 0, type := 2 }] } := by
  rfl

/-- C5 (code bug): `APIClient.place_order` validates the broker body against
`OrderModel` (via `response_model=OrderDetails`), a model with neither a
success flag nor an order id nor an error code; the documented broker
envelope `{success, errorCode, orderId}` therefore fails validation and the
call raises `APIResponseParsingError` instead of returning a result exposing
those fields - while the same body validates fine against
`PlaceOrderResponse`, the model `main.py` and the tests expect. -/
theorem C5_place_order_wrong_response_model :
    APIClient.place_order_of_body
        (.obj [("success", .bool true), ("errorCode", .num 0), ("orderId", .num 12345)])
      = .error (.apiResponseParsingError
          "Failed to parse response for /api/Order/place into OrderModel.")
    ∧ parseOrderModel
        (.obj [("success", .bool true), ("errorCode", .num 0), ("orderId", .num 12345)]) = none
    ∧ parsePlaceOrderResponse
        (.obj [("success", .bool true), ("errorCode", .num 0), ("orderId", .num 12345)])
      = some { success := true, error_code := some 0, error_message := none,
               order_id := some 12345 } := by
  refine ⟨rfl, rfl, rfl⟩

/-- C6 counterexample: a 401 response does NOT lead to a re-authentication
retry - `_request` makes one transport request, performs zero
re-authentication attempts, and wraps the 401 like any other HTTP error. -/
theorem C6_no_reauth_on_401_counterexample :
    (APIClient.request_once true { status := 401, text := "Unauthorized" }).reauthAttempts ≠ 1
    ∧ (APIClient.request_once true { status := 401, text := "Unauthorized" }).httpRequests = 1
    ∧ (APIClient.request_once true { status := 401, text := "Unauthorized" }).outcome
      = .error (.apiRequestError "API request failed: Unauthorized" (some 401) "Unauthorized") := by
  refine ⟨by decide, rfl, rfl⟩

/-- C6 amended: every 4xx/5xx response - 401 included - is wrapped into an
`APIRequestError` that preserves the HTTP status and the raw body; exactly one
transport request is made and no re-authentication retry of any kind is
attempted (the only authentication happens before the request, when no token
is cached). -/
theorem C6_http_errors_wrapped_never_retried (tokenCached : Bool) (resp : HttpResponse)
    (h : 400 ≤ resp.status) :
    (APIClient.request_once tokenCached resp).reauthAttempts = 0
    ∧ (APIClient.request_once tokenCached resp).httpRequests = 1
    ∧ (APIClient.request_once tokenCached resp).outcome
      = .error (.apiRequestError ("API request failed: " ++ resp.errorMessageField.getD resp.text)
          (some resp.status) resp.text) := by
  simp [APIClient.request_once, h]

/-- Witness for the amended C6 on a concrete 503 response. -/
theorem C6_http_errors_wrapped_never_retried_witness :
    (APIClient.request_once true { status := 503, text := "Service Unavailable" }).reauthAttempts = 0
    ∧ (APIClient.request_once true { status := 503, text := "Service Unavailable" }).httpRequests = 1
    ∧ (APIClient.request_once true { status := 503, text := "Service Unavailable" }).outcome
      = .error (.apiRequestError "API request failed: Service Unavailable" (some 503)
          "Service Unavailable") :=
  C6_http_errors_wrapped_never_retried true { status := 503, text := "Service Unavailable" }
    (by decide)

/-- C7: a matching `Filled` event with a price sets `entry_price` exactly once
(only a trade whose entry price is unset gets it assigned); a later matching
fill with the entry price already set is processed as an exit fill (exit
price, realized PnL, trade retired from the state) exactly when the trade
status is `closing`, and otherwise leaves state and trade unchanged. -/
theorem C7_entry_once_exit_iff_closing (cfg : StrategyCfg) (state : StrategyState)
    (ev : TradeEvent) (t : Trade) (oid : Int) (p : ℚ)
    (hct : state.current_trade = some t)
    (hoid : ev.orderId = some oid)
    (hmatch : t.order_id = oid)
    (hst : ev.status = some "Filled")
    (hp : ev.price = some p) :
    (t.entry_price = none →
      handle_user_trade cfg state ev
        = { state := { state with
              current_trade := some { t with entry_price := some p, status := "open_filled" } },
            trade := some { t with entry_price := some p, status := "open_filled" } })
    ∧ (∀ e, t.entry_price = some e → t.status = "closing" →
      handle_user_trade cfg state ev
        = { state := { state with
              trade_active := false, current_trade := none,
              daily_pnl := state.daily_pnl
                + (p - e) * directionSign t.direction * pointValue cfg * (t.size : ℚ) },
            trade := some { t with exit_price := some p, status := "closed", pnl := (p - e) * directionSign t.direction * pointValue cfg * (t.size : ℚ) } })
    ∧ (∀ e, t.entry_price = some e → t.status ≠ "closing" →
      handle_user_trade cfg state ev = { state := state, trade := some t }) := by
  refine ⟨?_, ?_, ?_⟩
  · intro hen
    simp [handle_user_trade, hoid, hct, hmatch, hst, hp, hen]
  · intro e hen hcl
    simp [handle_user_trade, hoid, hct, hmatch, hst, hp, hen, hcl]
  · intro e hen hcl
    simp [handle_user_trade, hoid, hct, hmatch, hst, hp, hen, hcl]

/-- Witness for C7: a concrete entry fill assigns the entry price and marks
the trade `open_filled`. -/
theorem C7_entry_once_exit_iff_closing_witness :
    handle_user_trade { contract_symbol := some "NQ" }
        { trade_active := true, current_trade := some { strategy_name := "default", order_id := 12345, account_id := 7, contract_id := "CON.F.US.ENQ.M25", direction := "long", size := 1 } }
        { orderId := some 12345, price := some 18000, status := some "Filled" }
      = { state := { trade_active := true, current_trade := some { strategy_name := "default", order_id := 12345, account_id := 7, contract_id := "CON.F.US.ENQ.M25", entry_price := some 18000, direction := "long", size := 1, status := "open_filled" } },
          trade := some { strategy_name := "default", order_id := 12345, account_id := 7, contract_id := "CON.F.US.ENQ.M25", entry_price := some 18000, direction := "long", size := 1, status := "open_filled" } } := by
  have h := (C7_entry_once_exit_iff_closing { contract_symbol := some "NQ" }
      { trade_active := true, current_trade := some { strategy_name := "default", order_id := 12345, account_id := 7, contract_id := "CON.F.US.ENQ.M25", direction := "long", size := 1 } }
      { orderId := some 12345, price := some 18000, status := some "Filled" }
      { strategy_name := "default", order_id := 12345, account_id := 7, contract_id := "CON.F.US.ENQ.M25", direction := "long", size := 1 }
      12345 18000 rfl rfl rfl rfl rfl).1 rfl
  exact h

/-- C8 counterexample: after a failed close attempt the trade status is the
string `open_filled`, not the distinct status string `open` the claim names
(`open` is the pre-fill status in this code). -/
theorem C8_revert_status_counterexample :
    (attemptClose
        { strategy_name := "default", order_id := 41, account_id := 7,
          contract_id := "CON.F.US.ENQ.M25", entry_price := some 18000, direction := "long",
          size := 1, status := "open_filled" }
        (.failure (some "Order rejected"))).trade.status ≠ "open" := by
  decide

/-- C8 amended: when the close order fails (business rejection or exception)
the trade status is reverted from `closing` to `open_filled` - the status it
held since the entry fill - every other field is unchanged, a failure event
is written to the alert log, and the exit decision on the next tick is the
same as before the attempt (so the close is re-attempted). -/
theorem C8_failed_close_reverts_to_open_filled (t : Trade) (outcome : CloseOutcome)
    (hfail : (∃ em, outcome = .failure em) ∨ (∃ msg, outcome = .raised msg)) :
    (attemptClose t outcome).trade = { t with status := "open_filled" }
    ∧ (attemptClose t outcome).alertLogEvents ≠ []
    ∧ ∀ (cfg : StrategyCfg) (mark : ℚ),
        exitReason cfg (attemptClose t outcome).trade mark = exitReason cfg t mark := by
  have hrev : (attemptClose t outcome).trade = { t with status := "open_filled" }
      ∧ (attemptClose t outcome).alertLogEvents ≠ [] := by
    rcases hfail with ⟨em, rfl⟩ | ⟨msg, rfl⟩ <;> exact ⟨rfl, by simp [attemptClose]⟩
  refine ⟨hrev.1, hrev.2, ?_⟩
  intro cfg mark
  rw [hrev.1]
  cases t
  rfl

/-- Witness for the amended C8: the live failure mode of the code - the
3-argument call of the 4-parameter `close_position_projectx` raises
`TypeError` - reverts a concrete trade to `open_filled` and logs. -/
theorem C8_failed_close_reverts_to_open_filled_witness :
    (attemptClose
        { strategy_name := "default", order_id := 42, account_id := 7,
          contract_id := "CON.F.US.ENQ.M25", entry_price := some 18000, direction := "short",
          size := 1, status := "open_filled" }
        (.raised "TypeError: close_position_projectx missing 1 required positional argument size_to_close")).trade
      = { strategy_name := "default", order_id := 42, account_id := 7,
          contract_id := "CON.F.US.ENQ.M25", entry_price := some 18000, direction := "short",
          size := 1, status := "open_filled" } := by
  have h := (C8_failed_close_reverts_to_open_filled
      { strategy_name := "default", order_id := 42, account_id := 7,
        contract_id := "CON.F.US.ENQ.M25", entry_price := some 18000, direction := "short",
        size := 1, status := "open_filled" }
      (.raised "TypeError: close_position_projectx missing 1 required positional argument size_to_close")
      (Or.inr ⟨_, rfl⟩)).1
  exact h

/-- Helper: a resubscribe call on a connected stream with a non-empty contract
id leaves the stream unchanged and sends the three subscribe messages. -/
theorem subscribe_contract_resub_connected (m : MarketDataStream) (c : String)
    (hc : c ≠ "") (hconn : m.connState = .connected) :
    MarketDataStream.subscribe_contract m c true = (m, subscribeSends c) := by
  simp [MarketDataStream.subscribe_contract, hc, hconn]

/-- Helper: the resubscription fold of `_on_open` over a connected stream
appends the subscribe messages of every listed contract, in order. -/
theorem on_open_foldl (l : List String) :
    ∀ (m : MarketDataStream) (acc : List SubMsg),
      m.connState = .connected → (∀ c ∈ l, c ≠ "") →
      l.foldl (fun acc c =>
          let r := MarketDataStream.subscribe_contract acc.1 c true
          (r.1, acc.2 ++ r.2)) (m, acc)
        = (m, acc ++ l.flatMap subscribeSends) := by
  induction l with
  | nil =>
    intro m acc _ _
    simp
  | cons d l ih =>
    intro m acc hconn hne
    have hd : d ≠ "" := hne d (List.mem_cons_self d l)
    have hcb : (d :: l).flatMap subscribeSends = subscribeSends d ++ l.flatMap subscribeSends := rfl
    rw [List.foldl_cons]
    have hstep : (let r := MarketDataStream.subscribe_contract (m, acc).1 d true
                  (r.1, (m, acc).2 ++ r.2)) = (m, acc ++ subscribeSends d) := by
      simp [MarketDataStream.subscribe_contract, hd, hconn]
    rw [hstep, ih m (acc ++ subscribeSends d) hconn
      (fun c hcl => hne c (List.mem_cons_of_mem d hcl)), hcb, List.append_assoc]

/-- Helper: `countMsg` distributes over append. -/
theorem countMsg_append (msg : SubMsg) (l1 l2 : List SubMsg) :
    countMsg msg (l1 ++ l2) = countMsg msg l1 + countMsg msg l2 := by
  induction l1 with
  | nil => simp [countMsg]
  | cons x l ih => simp [countMsg, ih, Nat.add_assoc]

/-- Helper: quote-subscription count within the three messages of one
contract. -/
theorem countMsg_sends_quotes (c d : String) :
    countMsg (SubMsg.quotes c) (subscribeSends d) = if d = c then 1 else 0 := by
  by_cases h : d = c <;> simp [subscribeSends, countMsg, h]

/-- Helper: trade-subscription count within the three messages of one
contract. -/
theorem countMsg_sends_trades (c d : String) :
    countMsg (SubMsg.trades c) (subscribeSends d) = if d = c then 1 else 0 := by
  by_cases h : d = c <;> simp [subscribeSends, countMsg, h]

/-- Helper: depth-subscription count within the three messages of one
contract. -/
theorem countMsg_sends_depth (c d : String) :
    countMsg (SubMsg.depth c) (subscribeSends d) = if d = c then 1 else 0 := by
  by_cases h : d = c <;> simp [subscribeSends, countMsg, h]

/-- Helper: over a duplicate-free contract list, the flattened subscribe
messages contain the quote subscription of a contract exactly once if the
contract is listed, never otherwise. -/
theorem countMsg_bind_quotes (l : List String) (c : String) (hnd : l.Nodup) :
    countMsg (SubMsg.quotes c) (l.flatMap subscribeSends) = if c ∈ l then 1 else 0 := by
  induction l with
  | nil => simp [countMsg]
  | cons d l ih =>
    rcases List.nodup_cons.mp hnd with ⟨hd, hl⟩
    have hcb : (d :: l).flatMap subscribeSends = subscribeSends d ++ l.flatMap subscribeSends := rfl
    rw [hcb, countMsg_append, countMsg_sends_quotes, ih hl]
    by_cases h : c = d
    · subst h
      simp [hd]
    · rw [if_neg (fun hh => h hh.symm)]
      simp [List.mem_cons, h]

/-- Helper: same statement for the trade subscription. -/
theorem countMsg_bind_trades (l : List String) (c : String) (hnd : l.Nodup) :
    countMsg (SubMsg.trades c) (l.flatMap subscribeSends) = if c ∈ l then 1 else 0 := by
  induction l with
  | nil => simp [countMsg]
  | cons d l ih =>
    rcases List.nodup_cons.mp hnd with ⟨hd, hl⟩
    have hcb : (d :: l).flatMap subscribeSends = subscribeSends d ++ l.flatMap subscribeSends := rfl
    rw [hcb, countMsg_append, countMsg_sends_trades, ih hl]
    by_cases h : c = d
    · subst h
      simp [hd]
    · rw [if_neg (fun hh => h hh.symm)]
      simp [List.mem_cons, h]

/-- Helper: same statement for the depth subscription. -/
theorem countMsg_bind_depth (l : List String) (c : String) (hnd : l.Nodup) :
    countMsg (SubMsg.depth c) (l.flatMap subscribeSends) = if c ∈ l then 1 else 0 := by
  induction l with
  | nil => simp [countMsg]
  | cons d l ih =>
    rcases List.nodup_cons.mp hnd with ⟨hd, hl⟩
    have hcb : (d :: l).flatMap subscribeSends = subscribeSends d ++ l.flatMap subscribeSends := rfl
    rw [hcb, countMsg_append, countMsg_sends_depth, ih hl]
    by_cases h : c = d
    · subst h
      simp [hd]
    · rw [if_neg (fun hh => h hh.symm)]
      simp [List.mem_cons, h]

/-- C9: on every successful (re)connect `_on_open` re-issues subscribe
messages for exactly the contracts in the current subscription set, once per
contract: each listed contract gets each of its three subscribe messages
exactly once, contracts outside the set get none, and the subscription set
itself is preserved. -/
theorem C9_resubscribe_exactly_once (m : MarketDataStream)
    (hnd : m.subscriptions.Nodup) (hne : "" ∉ m.subscriptions) :
    (MarketDataStream.on_open m).1
      = { connState := .connected, subscriptions := m.subscriptions }
    ∧ (∀ c ∈ m.subscriptions,
        countMsg (SubMsg.quotes c) (MarketDataStream.on_open m).2 = 1
        ∧ countMsg (SubMsg.trades c) (MarketDataStream.on_open m).2 = 1
        ∧ countMsg (SubMsg.depth c) (MarketDataStream.on_open m).2 = 1)
    ∧ (∀ c, c ∉ m.subscriptions →
        countMsg (SubMsg.quotes c) (MarketDataStream.on_open m).2 = 0
        ∧ countMsg (SubMsg.trades c) (MarketDataStream.on_open m).2 = 0
        ∧ countMsg (SubMsg.depth c) (MarketDataStream.on_open m).2 = 0) := by
  have hfold : MarketDataStream.on_open m
      = ({ connState := .connected, subscriptions := m.subscriptions },
         m.subscriptions.flatMap subscribeSends) := by
    have h := on_open_foldl m.subscriptions { m with connState := .connected } [] rfl
        (fun c hc hceq => hne (hceq ▸ hc))
    simpa [MarketDataStream.on_open] using h
  refine ⟨by rw [hfold], ?_, ?_⟩
  · intro c hc
    rw [hfold]
    refine ⟨?_, ?_, ?_⟩
    · rw [countMsg_bind_quotes m.subscriptions c hnd, if_pos hc]
    · rw [countMsg_bind_trades m.subscriptions c hnd, if_pos hc]
    · rw [countMsg_bind_depth m.subscriptions c hnd, if_pos hc]
  · intro c hc
    rw [hfold]
    refine ⟨?_, ?_, ?_⟩
    · rw [countMsg_bind_quotes m.subscriptions c hnd, if_neg hc]
    · rw [countMsg_bind_trades m.subscriptions c hnd, if_neg hc]
    · rw [countMsg_bind_depth m.subscriptions c hnd, if_neg hc]

/-- Witness for C9, scenario E of the specification: three active contract
subscriptions are each re-sent exactly once on reconnect, an unsubscribed
contract not at all. -/
theorem C9_resubscribe_exactly_once_witness :
    countMsg (SubMsg.quotes "CON.F.US.ENQ.M25")
        (MarketDataStream.on_open { connState := .reconnecting, subscriptions := ["CON.F.US.ENQ.M25", "CON.F.US.EP.M25", "CON.F.US.MNQ.M25"] }).2 = 1
    ∧ countMsg (SubMsg.quotes "CON.F.US.CL.M25")
        (MarketDataStream.on_open { connState := .reconnecting, subscriptions := ["CON.F.US.ENQ.M25", "CON.F.US.EP.M25", "CON.F.US.MNQ.M25"] }).2 = 0 := by
  have h := C9_resubscribe_exactly_once
      { connState := .reconnecting, subscriptions := ["CON.F.US.ENQ.M25", "CON.F.US.EP.M25", "CON.F.US.MNQ.M25"] }
      (by decide) (by decide)
  exact ⟨(h.2.1 "CON.F.US.ENQ.M25" (by decide)).1, (h.2.2 "CON.F.US.CL.M25" (by decide)).1⟩

/-- C10: `cancel_order` never raises - every observable outcome of its inner
request is mapped to a Bool - and it returns `true` exactly when the parsed
broker response reports success; API request errors, parsing errors,
authentication errors and unexpected exceptions all yield `false`. -/
theorem C10_cancel_order_total (res : RequestResult APIResponse) :
    (APIClient.cancel_order res = true ↔ ∃ w, res = .ok w ∧ w.success = true)
    ∧ (∀ sc txt, APIClient.cancel_order (.apiRequestError sc txt) = false)
    ∧ (∀ msg, APIClient.cancel_order (.parsingError msg) = false)
    ∧ (∀ msg, APIClient.cancel_order (.authError msg) = false)
    ∧ (∀ msg, APIClient.cancel_order (.otherError msg) = false) := by
  refine ⟨?_, fun _ _ => rfl, fun _ => rfl, fun _ => rfl, fun _ => rfl⟩
  cases res <;> simp [APIClient.cancel_order]

end TopstepBot
